import Mathlib

/-!
Shallow embedding of the `apoch/scribblings` value-source demo (C++).

The C++ code works on `float`. Two models are used:

* An exact real-valued model over `ℚ`, used for the algebraic claims
  (clamping, invariants, additivity, idempotence, purity, attachment).
  Every definition mirrors the corresponding C++ member function
  statement by statement.

* An exact IEEE-754 binary32 model (`round32` below, round-to-nearest,
  ties-to-even on the normal range), used for the driver-loop claim,
  whose tick count genuinely depends on `float` rounding.

Pointers to value sources are modelled as indices into an explicit heap
(a `List` of source states); a null pointer is `Option.none`.
-/

/-- `ValueSourceLinearInterpolator` (ValueSourceLinearInterpolator.h):
fields `Min`, `Max`, `Value`, `Time`, real-valued model of `float`. -/
structure ValueSourceLinearInterpolator where
  Min : ℚ
  Max : ℚ
  Value : ℚ
  Time : ℚ
deriving DecidableEq, Repr

namespace ValueSourceLinearInterpolator

/-- Constructor `ValueSourceLinearInterpolator(min, max)`:
`Min(min), Max(max), Value(min), Time(0.0f)`. -/
def init (min max : ℚ) : ValueSourceLinearInterpolator :=
  { Min := min, Max := max, Value := min, Time := 0 }

/-- `GetCurrentValue () const { return Value; }` -/
def GetCurrentValue (s : ValueSourceLinearInterpolator) : ℚ :=
  s.Value

/-- `GetCurrentValue` as a const member call: it returns the field
`Value` and, being `const`, leaves the object state unchanged. -/
def GetCurrentValueCall (s : ValueSourceLinearInterpolator) :
    ℚ × ValueSourceLinearInterpolator :=
  (s.Value, s)

/-- `SetTime (float t)`: stores `t` into `Time`, clamps `Time` to
`[0,1]` with two `if` statements, then recomputes
`Value = Min + (Max - Min) * Time`. -/
def SetTime (s : ValueSourceLinearInterpolator) (t : ℚ) :
    ValueSourceLinearInterpolator :=
  let time := t
  let time := if time < 0 then 0 else time
  let time := if time > 1 then 1 else time
  { s with Time := time, Value := s.Min + (s.Max - s.Min) * time }

end ValueSourceLinearInterpolator

/-- `ValueSourceLinearAccumulator` (ValueSourceAccumulator.h):
fields `Value`, `Velocity`, real-valued model of `float`. -/
structure ValueSourceLinearAccumulator where
  Value : ℚ
  Velocity : ℚ
deriving DecidableEq, Repr

namespace ValueSourceLinearAccumulator

/-- Constructor `ValueSourceLinearAccumulator(start, velocity)`:
`Value(start), Velocity(velocity)`. -/
def init (start velocity : ℚ) : ValueSourceLinearAccumulator :=
  { Value := start, Velocity := velocity }

/-- `GetCurrentValue () const { return Value; }` -/
def GetCurrentValue (s : ValueSourceLinearAccumulator) : ℚ :=
  s.Value

/-- `GetCurrentValue` as a const member call: it returns the field
`Value` and, being `const`, leaves the object state unchanged. -/
def GetCurrentValueCall (s : ValueSourceLinearAccumulator) :
    ℚ × ValueSourceLinearAccumulator :=
  (s.Value, s)

/-- `Advance (float dt) { Value += (Velocity * dt); }` -/
def Advance (s : ValueSourceLinearAccumulator) (dt : ℚ) :
    ValueSourceLinearAccumulator :=
  { s with Value := s.Value + s.Velocity * dt }

end ValueSourceLinearAccumulator

/-- A concrete state behind a `ValueSource<float>*`: in this repository
the pointed-to object is either a linear interpolator or a linear
accumulator (the only two concrete `ValueSource<float>` classes). -/
inductive SourceState where
  | interp (s : ValueSourceLinearInterpolator)
  | accum (s : ValueSourceLinearAccumulator)
deriving DecidableEq, Repr

/-- Virtual dispatch of `GetCurrentValue` through a `ValueSource<float>*`. -/
def SourceState.GetCurrentValue : SourceState → ℚ
  | .interp s => s.GetCurrentValue
  | .accum s => s.GetCurrentValue

/-- `heap.modifyAt i f` applies `f` to the `i`-th element of the heap,
leaving all other elements in place (out-of-range indices unchanged). -/
def heapModify {α : Type} : List α → Nat → (α → α) → List α
  | [], _, _ => []
  | x :: xs, 0, f => f x :: xs
  | x :: xs, n + 1, f => x :: heapModify xs n f

namespace ClassicDesignDemo

/-- `ClassicDesignDemo::MovingObject`: fields `Position`, `Velocity`. -/
structure MovingObject where
  Position : ℚ
  Velocity : ℚ
deriving DecidableEq, Repr

/-- Constructor `MovingObject(start, velocity)`:
`Position = start; Velocity = velocity;`. -/
def MovingObject.init (start velocity : ℚ) : MovingObject :=
  { Position := start, Velocity := velocity }

/-- `Advance (float dt) { Position += Velocity * dt; }` -/
def MovingObject.Advance (o : MovingObject) (dt : ℚ) : MovingObject :=
  { o with Position := o.Position + o.Velocity * dt }

/-- `Render ()`: prints `"Classic object position: " << Position`; it
only reads `Position`, so the model returns the displayed value
together with the unchanged object. -/
def MovingObject.Render (o : MovingObject) : ℚ × MovingObject :=
  (o.Position, o)

end ClassicDesignDemo

namespace DynamicValueSourceDemo

/-- `DynamicValueSourceDemo::MovingObject`: holds
`DynamicValueSource<float> * Position = nullptr;`. The pointer is an
index into a heap of accumulator states (the repository's only concrete
`DynamicValueSource<float>`); `none` is the null pointer. -/
structure MovingObject where
  Position : Option Nat := none
deriving DecidableEq, Repr

/-- `AttachPositionValueSource (DynamicValueSource<float> * position)`:
`Position = position;` — replaces any prior pointer, touches nothing
else. -/
def MovingObject.AttachPositionValueSource (o : MovingObject) (p : Nat) :
    MovingObject :=
  { o with Position := some p }

/-- `Advance (float dt) { if (Position) Position->Advance(dt); }` —
forwards to the attached source on the heap; no-op on a null pointer. -/
def MovingObject.Advance (heap : List ValueSourceLinearAccumulator)
    (o : MovingObject) (dt : ℚ) : List ValueSourceLinearAccumulator :=
  match o.Position with
  | none => heap
  | some i => heapModify heap i (fun s => s.Advance dt)

/-- `Render () { if (Position) std::cout << ... << Position->GetCurrentValue() ... }`
— the displayed value, `none` when nothing is printed (null pointer, or
a dangling index in the model). -/
def MovingObject.Render (heap : List ValueSourceLinearAccumulator)
    (o : MovingObject) : Option ℚ :=
  o.Position.bind fun i =>
    (heap.get? i).map ValueSourceLinearAccumulator.GetCurrentValue

end DynamicValueSourceDemo

namespace ReactiveProgrammingDemo

/-- `ReactiveProgrammingDemo::MovingObject`: holds
`ValueSource<float> * Position = nullptr;` as an index into a heap of
source states; `none` is the null pointer. No `Advance` member. -/
structure MovingObject where
  Position : Option Nat := none
deriving DecidableEq, Repr

/-- `AttachPositionValueSource (ValueSource<float> * position)`:
`Position = position;`. -/
def MovingObject.AttachPositionValueSource (o : MovingObject) (p : Nat) :
    MovingObject :=
  { o with Position := some p }

/-- `Render () { if (Position) std::cout << ... << Position->GetCurrentValue() ... }` -/
def MovingObject.Render (heap : List SourceState) (o : MovingObject) :
    Option ℚ :=
  o.Position.bind fun i => (heap.get? i).map SourceState.GetCurrentValue

end ReactiveProgrammingDemo

namespace ValueSourceDemo

/-- `ValueSourceDemo::MovingObject` (ValueSourceDemo.cpp): holds
`ValueSource<float> * Position;` with NO initializer. A
default-constructed object has an indeterminate pointer; the model
gives it no valid attachment (`none`). -/
structure MovingObject where
  Position : Option Nat
deriving DecidableEq, Repr

/-- A default-constructed `ValueSourceDemo::MovingObject`: the source
pointer member is left uninitialized, so no valid attachment exists. -/
def MovingObject.fresh : MovingObject :=
  { Position := none }

/-- `AttachPositionValueSource (ValueSource<float> * position)`:
`Position = position;`. -/
def MovingObject.AttachPositionValueSource (o : MovingObject) (p : Nat) :
    MovingObject :=
  { o with Position := some p }

/-- `Render () { std::cout << ... << Position->GetCurrentValue() ... }`
— dereferences `Position` with no null check. Dereferencing an invalid
pointer is undefined behaviour; the model returns `none` (no defined
result) exactly when there is no valid attachment, and the source's
current value otherwise. -/
def MovingObject.Render (heap : List SourceState) (o : MovingObject) :
    Option ℚ :=
  o.Position.bind fun i => (heap.get? i).map SourceState.GetCurrentValue

end ValueSourceDemo

/-!
## Exact IEEE-754 binary32 model

All `float` values occurring in the driver run lie in the normal range
of binary32, where rounding a real `q` to the nearest float (ties to
even) is: find `e` with `2^e ≤ |q| < 2^(e+1)`, round `|q| * 2^(23-e)`
to the nearest integer (ties to even), and scale back. `round32` below
implements exactly that; `fadd`/`fmul`/`fsub` are the correctly-rounded
binary32 operations on exactly-represented operands.
-/

/-- `2^e` as a rational, for an integer exponent. -/
def pow2 (e : ℤ) : ℚ :=
  if 0 ≤ e then ((2 ^ e.toNat : ℕ) : ℚ) else ((2 ^ (-e).toNat : ℕ) : ℚ)⁻¹

/-- Fuel-driven search, from exponent `e` upward, for the binade of a
positive rational `q`: the first `e` with `q < 2^(e+1)`. -/
def findExpAux : Nat → ℚ → ℤ → ℤ
  | 0, _, e => e
  | fuel + 1, q, e => if q < pow2 (e + 1) then e else findExpAux fuel q (e + 1)

/-- Binade exponent of a positive rational in `(2^(-40), 2^40)`:
the `e` with `2^e ≤ q < 2^(e+1)`. -/
def findExp (q : ℚ) : ℤ :=
  findExpAux 80 q (-40)

/-- Floor of a nonnegative rational, via integer division of the
numerator by the denominator. -/
def qfloor (q : ℚ) : ℤ :=
  q.num / (q.den : ℤ)

/-- Round a positive rational in the binary32 normal range to the
nearest representable binary32 value, ties to even. -/
def roundPos32 (q : ℚ) : ℚ :=
  let e := findExp q
  let scaled := q * pow2 (23 - e)
  let n := qfloor scaled
  let r := scaled - (n : ℚ)
  let n' :=
    if r < 1 / 2 then n
    else if 1 / 2 < r then n + 1
    else if n % 2 = 0 then n else n + 1
  (n' : ℚ) * pow2 (e - 23)

/-- Round a rational in the binary32 normal range (or zero) to the
nearest representable binary32 value, ties to even. -/
def round32 (q : ℚ) : ℚ :=
  if q = 0 then 0
  else if q < 0 then -(roundPos32 (-q))
  else roundPos32 q

/-- Correctly-rounded binary32 addition of exactly-represented floats. -/
def fadd (a b : ℚ) : ℚ := round32 (a + b)

/-- Correctly-rounded binary32 multiplication of exactly-represented floats. -/
def fmul (a b : ℚ) : ℚ := round32 (a * b)

/-- Correctly-rounded binary32 subtraction of exactly-represented floats. -/
def fsub (a b : ℚ) : ℚ := round32 (a - b)

/-- The exact value of the `float` literal `0.1f` (`0x3DCCCCCD`). -/
def dt32 : ℚ := 13421773 / 134217728

/-- `ClassicDesignDemo::MovingObject::Advance` under binary32
arithmetic: `Position += Velocity * dt`. -/
def classicAdvance32 (o : ClassicDesignDemo.MovingObject) (dt : ℚ) :
    ClassicDesignDemo.MovingObject :=
  { o with Position := fadd o.Position (fmul o.Velocity dt) }

/-- `ValueSourceLinearAccumulator::Advance` under binary32 arithmetic:
`Value += (Velocity * dt)`. -/
def accumAdvance32 (s : ValueSourceLinearAccumulator) (dt : ℚ) :
    ValueSourceLinearAccumulator :=
  { s with Value := fadd s.Value (fmul s.Velocity dt) }

/-- `ValueSourceLinearInterpolator::SetTime` under binary32 arithmetic:
clamp `t` to `[0,1]`, then `Value = Min + (Max - Min) * Time`
(comparisons on exactly-represented floats are exact). -/
def lerpSetTime32 (s : ValueSourceLinearInterpolator) (t : ℚ) :
    ValueSourceLinearInterpolator :=
  let time := t
  let time := if time < 0 then 0 else time
  let time := if time > 1 then 1 else time
  { s with Time := time, Value := fadd s.Min (fmul (fsub s.Max s.Min) time) }

/-- One printed line of the driver (`main` in the demo driver file). -/
inductive Line where
  | tick (t : ℚ)
  | classic (v : ℚ)
  | valueSource (v : ℚ)
  | reactive (v : ℚ)
deriving DecidableEq, Repr

/-- The driver's `while (time <= 1.0f)` loop, under binary32
arithmetic, with enough fuel. Each iteration: `time += DT`; print
`"Tick at " << time`; `classicobject.Advance(DT)`;
`dvsobject.Advance(DT)` (forwards to the attached accumulator);
`lerp.SetTime(time)`; then render the classic object, the
value-source object, and the reactive object, in that order. -/
def mainLoop : Nat → ℚ → ClassicDesignDemo.MovingObject →
    ValueSourceLinearAccumulator → ValueSourceLinearInterpolator → List Line
  | 0, _, _, _, _ => []
  | fuel + 1, time, classicobject, movement, lerp =>
    if time ≤ 1 then
      let time' := fadd time dt32
      let classicobject' := classicAdvance32 classicobject dt32
      let movement' := accumAdvance32 movement dt32
      let lerp' := lerpSetTime32 lerp time'
      Line.tick time' :: Line.classic classicobject'.Position ::
        Line.valueSource movement'.GetCurrentValue ::
        Line.reactive lerp'.GetCurrentValue ::
        mainLoop fuel time' classicobject' movement' lerp'
    else []

/-- The full console output of `main`:
`ClassicDesignDemo::MovingObject classicobject(1.0f, 4.0f)`,
`ValueSourceLinearAccumulator movement(1.0f, 4.0f)` attached to the
dynamic-value-source object,
`ValueSourceLinearInterpolator lerp(1.0f, 5.0f)` attached to the
reactive object, loop from `time = 0.0f` with `DT = 0.1f`. -/
def mainOutput : List Line :=
  mainLoop 100 0 (ClassicDesignDemo.MovingObject.init 1 4)
    (ValueSourceLinearAccumulator.init 1 4)
    (ValueSourceLinearInterpolator.init 1 5)

/-- Is a line a `"Tick at <time>"` header? -/
def Line.isTick : Line → Bool
  | .tick _ => true
  | _ => false

/-- The output consists of blocks of exactly four lines: a tick header
followed by one line for the classic object, one for the
dynamic-value-source object, and one for the reactive object, in that
order. -/
def ticksWellFormed : List Line → Bool
  | [] => true
  | .tick _ :: .classic _ :: .valueSource _ :: .reactive _ :: rest =>
      ticksWellFormed rest
  | _ => false


/-!
## Helper lemmas
-/

/-- `SetTime` leaves the bounds `Min` and `Max` unchanged. -/
theorem setTime_Min_Max (s : ValueSourceLinearInterpolator) (t : ℚ) :
    (s.SetTime t).Min = s.Min ∧ (s.SetTime t).Max = s.Max :=
  ⟨rfl, rfl⟩

/-- Value computed by `SetTime`, as a function of the input fraction. -/
theorem setTime_Value (s : ValueSourceLinearInterpolator) (t : ℚ) :
    (s.SetTime t).Value =
      if t ≤ 0 then s.Min
      else if 1 ≤ t then s.Max
      else s.Min + (s.Max - s.Min) * t := by
  simp only [ValueSourceLinearInterpolator.SetTime]
  split_ifs <;>
    first
      | ring1
      | linarith
      | (have ht : t = 0 := by linarith
         subst ht; ring1)
      | (have ht : t = 1 := by linarith
         subst ht; ring1)

/-- The fraction stored by `SetTime` is the clamp of its argument. -/
theorem setTime_Time (s : ValueSourceLinearInterpolator) (t : ℚ) :
    (s.SetTime t).Time = if t < 0 then 0 else if t > 1 then 1 else t := by
  simp only [ValueSourceLinearInterpolator.SetTime]
  split_ifs <;> first | rfl | linarith

/-- The interpolator invariant: bounds are the construction bounds, the
stored fraction lies in `[0,1]`, and the stored value is
`min + (max - min) * fraction`. -/
def goodInterpState (min max : ℚ) (s : ValueSourceLinearInterpolator) : Prop :=
  s.Min = min ∧ s.Max = max ∧ 0 ≤ s.Time ∧ s.Time ≤ 1 ∧
    s.Value = min + (max - min) * s.Time

/-- A freshly constructed interpolator satisfies the invariant. -/
theorem goodInterpState_init (min max : ℚ) :
    goodInterpState min max (ValueSourceLinearInterpolator.init min max) := by
  refine ⟨rfl, rfl, le_refl 0, zero_le_one, ?_⟩
  show min = min + (max - min) * 0
  ring

/-- `SetTime` preserves the interpolator invariant. -/
theorem goodInterpState_setTime (min max : ℚ)
    (s : ValueSourceLinearInterpolator) (t : ℚ)
    (h : goodInterpState min max s) :
    goodInterpState min max (s.SetTime t) := by
  obtain ⟨hmin, hmax, -, -, -⟩ := h
  refine ⟨hmin, hmax, ?_, ?_, ?_⟩
  · rw [setTime_Time]; split_ifs <;> linarith
  · rw [setTime_Time]; split_ifs <;> linarith
  · rw [setTime_Value, setTime_Time, ← hmin, ← hmax]
    split_ifs <;>
      first
        | ring1
        | linarith
        | (have ht : t = 0 := by linarith
           subst ht; ring1)
        | (have ht : t = 1 := by linarith
           subst ht; ring1)

/-- Any sequence of `SetTime` calls preserves the invariant. -/
theorem goodInterpState_foldl (min max : ℚ) (calls : List ℚ)
    (s : ValueSourceLinearInterpolator) (h : goodInterpState min max s) :
    goodInterpState min max
      (calls.foldl ValueSourceLinearInterpolator.SetTime s) := by
  induction calls generalizing s with
  | nil => exact h
  | cons t rest ih => exact ih _ (goodInterpState_setTime min max s t h)

/-- Folding `Advance` over a list of deltas adds `Velocity` times the
sum of the deltas to `Value` and preserves `Velocity`. -/
theorem accumulator_foldl_advance (ds : List ℚ)
    (s : ValueSourceLinearAccumulator) :
    (ds.foldl ValueSourceLinearAccumulator.Advance s).Value
        = s.Value + s.Velocity * ds.sum ∧
      (ds.foldl ValueSourceLinearAccumulator.Advance s).Velocity
        = s.Velocity := by
  induction ds generalizing s with
  | nil => exact ⟨by simp, rfl⟩
  | cons d rest ih =>
      obtain ⟨h1, h2⟩ := ih (s.Advance d)
      refine ⟨?_, h2⟩
      rw [List.foldl_cons, h1]
      show s.Value + s.Velocity * d + s.Velocity * rest.sum
          = s.Value + s.Velocity * (d + rest.sum)
      ring

/-!
## Claims
-/

/-- C1: for every interpolator and fraction `t`, `SetTime t` followed by
`GetCurrentValue` returns `Min` when `t ≤ 0`, `Max` when `t ≥ 1`, and
`Min + (Max - Min) * t` for `t` strictly between 0 and 1; in
particular this holds for the interpolator constructed with bounds
`(min, max)`. -/
theorem interpolator_setTime_getCurrentValue (min max t : ℚ) :
    (((ValueSourceLinearInterpolator.init min max).SetTime t).GetCurrentValue
        = if t ≤ 0 then min else if 1 ≤ t then max else min + (max - min) * t)
    ∧ ∀ s : ValueSourceLinearInterpolator,
        (s.SetTime t).GetCurrentValue =
          if t ≤ 0 then s.Min
          else if 1 ≤ t then s.Max
          else s.Min + (s.Max - s.Min) * t := by
  exact ⟨setTime_Value _ t, fun s => setTime_Value s t⟩

/-- C2: after construction with `(min, max)` and after any sequence of
`SetTime` calls, the interpolator's stored fraction lies in `[0,1]` and
its stored value equals `min + (max - min) * fraction`; construction
itself sets the fraction to 0 and the value to `min`. -/
theorem interpolator_invariant (min max : ℚ) (calls : List ℚ) :
    goodInterpState min max
        (calls.foldl ValueSourceLinearInterpolator.SetTime
          (ValueSourceLinearInterpolator.init min max))
    ∧ (ValueSourceLinearInterpolator.init min max).Time = 0
    ∧ (ValueSourceLinearInterpolator.init min max).Value = min :=
  ⟨goodInterpState_foldl min max calls _ (goodInterpState_init min max),
    rfl, rfl⟩

/-- C3: advancing the accumulator constructed with `(start, rate)`
through deltas `d1..dn` yields `start + rate * (d1 + ... + dn)`, and a
single `Advance` adds exactly `rate * delta` to the current value. -/
theorem accumulator_advance_sum (start rate : ℚ) (ds : List ℚ) :
    ((ds.foldl ValueSourceLinearAccumulator.Advance
          (ValueSourceLinearAccumulator.init start rate)).GetCurrentValue
        = start + rate * ds.sum)
    ∧ ∀ (s : ValueSourceLinearAccumulator) (d : ℚ),
        (s.Advance d).Value = s.Value + s.Velocity * d :=
  ⟨(accumulator_foldl_advance ds _).1, fun _ _ => rfl⟩

/-- C7: `SetTime` is idempotent: calling it twice with the same
argument leaves the interpolator in the same state as calling it
once. -/
theorem interpolator_setTime_idempotent
    (s : ValueSourceLinearInterpolator) (t : ℚ) :
    (s.SetTime t).SetTime t = s.SetTime t := by
  simp only [ValueSourceLinearInterpolator.SetTime]

/-- C8: `GetCurrentValue` is a pure query on both concrete value
sources: the call leaves the state unchanged, and an immediate second
call returns the same result. -/
theorem getCurrentValue_pure (si : ValueSourceLinearInterpolator)
    (sa : ValueSourceLinearAccumulator) :
    ((si.GetCurrentValueCall).2 = si
      ∧ (((si.GetCurrentValueCall).2).GetCurrentValueCall).1
          = (si.GetCurrentValueCall).1)
    ∧ ((sa.GetCurrentValueCall).2 = sa
      ∧ (((sa.GetCurrentValueCall).2).GetCurrentValueCall).1
          = (sa.GetCurrentValueCall).1) :=
  ⟨⟨rfl, rfl⟩, ⟨rfl, rfl⟩⟩

/-- C9: for the classic moving object, `Advance` changes `Position` by
exactly `Velocity * dt` and leaves `Velocity` unchanged; construction
sets `Position` to `start` and `Velocity` to `velocity`; `Render` only
reads the state and changes nothing. -/
theorem classic_advance_position (start velocity dt : ℚ)
    (o : ClassicDesignDemo.MovingObject) :
    ((o.Advance dt).Position = o.Position + o.Velocity * dt)
    ∧ ((o.Advance dt).Velocity = o.Velocity)
    ∧ ((ClassicDesignDemo.MovingObject.init start velocity).Position = start)
    ∧ ((ClassicDesignDemo.MovingObject.init start velocity).Velocity = velocity)
    ∧ (o.Render = (o.Position, o)) :=
  ⟨rfl, rfl, rfl, rfl, rfl⟩

/-- C5: the self-advancing consumer with a null source pointer:
`Advance` leaves every source state unchanged and `Render` prints
nothing; neither operation fails. -/
theorem dvs_null_noop (heap : List ValueSourceLinearAccumulator) (dt : ℚ) :
    (DynamicValueSourceDemo.MovingObject.Advance heap ⟨none⟩ dt = heap)
    ∧ (DynamicValueSourceDemo.MovingObject.Render heap ⟨none⟩ = none)
    ∧ (({} : DynamicValueSourceDemo.MovingObject).Position = none) :=
  ⟨rfl, rfl, rfl⟩

/-- Attaching a source to the self-advancing consumer, viewed on the
whole world (heap of sources, consumer): only the consumer's pointer
member is assigned. -/
def attachWorldDVS
    (w : List ValueSourceLinearAccumulator × DynamicValueSourceDemo.MovingObject)
    (p : Nat) :
    List ValueSourceLinearAccumulator × DynamicValueSourceDemo.MovingObject :=
  (w.1, w.2.AttachPositionValueSource p)

/-- Attaching a source to the reactive consumer, viewed on the whole
world (heap of sources, consumer): only the consumer's pointer member
is assigned. -/
def attachWorldRP
    (w : List SourceState × ReactiveProgrammingDemo.MovingObject) (p : Nat) :
    List SourceState × ReactiveProgrammingDemo.MovingObject :=
  (w.1, w.2.AttachPositionValueSource p)

/-- C6: for both consumer variants, attaching a new source replaces the
prior pointer (whatever it was), a subsequent `Render` displays the
newly attached source's current value (a heap lookup at the new index,
independent of the previous attachment), and the attachment operation
leaves every source state on the heap unchanged. -/
theorem attach_replaces_source
    (heapD : List ValueSourceLinearAccumulator)
    (oD : DynamicValueSourceDemo.MovingObject) (j : Nat)
    (heapR : List SourceState)
    (oR : ReactiveProgrammingDemo.MovingObject) (k : Nat) :
    ((oD.AttachPositionValueSource j).Position = some j
      ∧ DynamicValueSourceDemo.MovingObject.Render heapD
            (oD.AttachPositionValueSource j)
          = (heapD.get? j).map ValueSourceLinearAccumulator.GetCurrentValue
      ∧ (attachWorldDVS (heapD, oD) j).1 = heapD)
    ∧ ((oR.AttachPositionValueSource k).Position = some k
      ∧ ReactiveProgrammingDemo.MovingObject.Render heapR
            (oR.AttachPositionValueSource k)
          = (heapR.get? k).map SourceState.GetCurrentValue
      ∧ (attachWorldRP (heapR, oR) k).1 = heapR) :=
  ⟨⟨rfl, rfl, rfl⟩, ⟨rfl, rfl, rfl⟩⟩

/-- C10: in ValueSourceDemo.cpp the consumer's source pointer member is
uninitialized by default (`fresh` has no valid attachment) and `Render`
dereferences it with no null check: with no attachment `Render` has no
defined result (`none`, modelling the undefined behaviour), while after
`AttachPositionValueSource` it returns the attached source's current
value — attachment is the precondition for a defined `Render`. -/
theorem vsd_render_requires_attachment (heap : List SourceState)
    (o : ValueSourceDemo.MovingObject) (i : Nat) :
    (ValueSourceDemo.MovingObject.fresh.Position = none)
    ∧ (ValueSourceDemo.MovingObject.Render heap
        ValueSourceDemo.MovingObject.fresh = none)
    ∧ (ValueSourceDemo.MovingObject.Render heap
          (o.AttachPositionValueSource i)
        = (heap.get? i).map SourceState.GetCurrentValue) :=
  ⟨rfl, rfl, rfl⟩

set_option maxRecDepth 100000

/-- C4: under exact binary32 semantics the driver loop with step
`0.1f` from time `0.0f` and condition `time <= 1.0f` executes exactly
10 ticks (the accumulated float time after the 10th tick is
`8388609/8388608 > 1`), each tick printing a tick header followed by
one line per consumer in the stable order classic object,
dynamic-value-source object, reactive object, and the full printed
trace is the fixed, reproducible list of values below. -/
theorem driver_loop_ten_ticks :
    mainOutput.countP Line.isTick = 10
    ∧ ticksWellFormed mainOutput = true
    ∧ mainOutput.length = 40
    ∧ mainOutput =
      [Line.tick (13421773 / 134217728),
       Line.classic (11744051 / 8388608),
       Line.valueSource (11744051 / 8388608),
       Line.reactive (11744051 / 8388608),
       Line.tick (13421773 / 67108864),
       Line.classic (7549747 / 4194304),
       Line.valueSource (7549747 / 4194304),
       Line.reactive (7549747 / 4194304),
       Line.tick (5033165 / 16777216),
       Line.classic (9227469 / 4194304),
       Line.valueSource (9227469 / 4194304),
       Line.reactive (9227469 / 4194304),
       Line.tick (13421773 / 33554432),
       Line.classic (10905191 / 4194304),
       Line.valueSource (10905191 / 4194304),
       Line.reactive (5452595 / 2097152),
       Line.tick (1 / 2),
       Line.classic (12582913 / 4194304),
       Line.valueSource (12582913 / 4194304),
       Line.reactive 3,
       Line.tick (5033165 / 8388608),
       Line.classic (14260635 / 4194304),
       Line.valueSource (14260635 / 4194304),
       Line.reactive (7130317 / 2097152),
       Line.tick (2936013 / 4194304),
       Line.classic (15938357 / 4194304),
       Line.valueSource (15938357 / 4194304),
       Line.reactive (3984589 / 1048576),
       Line.tick (6710887 / 8388608),
       Line.classic (8808039 / 2097152),
       Line.valueSource (8808039 / 2097152),
       Line.reactive (8808039 / 2097152),
       Line.tick (1887437 / 2097152),
       Line.classic (2411725 / 524288),
       Line.valueSource (2411725 / 524288),
       Line.reactive (2411725 / 524288),
       Line.tick (8388609 / 8388608),
       Line.classic (10485761 / 2097152),
       Line.valueSource (10485761 / 2097152),
       Line.reactive 5] := by
  decide!
